import Mathlib

/-!
Verification development for the GilentBot_Tg repository (Telegram shop bot
with Tinkoff acquiring integration).  The definitions below are a shallow
embedding of the payment core found in `CilbertClubBot.py` and
`database/queries.py`:

* the Tinkoff signing and transport client (`generate_token`, `send_request`,
  `init_payment`, `get_payment_state`),
* the order store queries (`get_amount`, `update_payment_data`,
  `init_new_payment`, `check_amount_and_payment_id`, `get_user_tg_id`),
* the payment-session handler `pay` and the webhook handler
  `process_payment`.

Python dictionaries of request parameters are modelled as association lists
with insertion-order semantics; database rows are a list of `Order` records;
network effects are modelled by explicit outcome parameters; a raised Python
exception that escapes a function is an `Except.error` (only
`sqlalchemy.exc.OperationalError` is caught by the queries, so `ValueError`,
`TypeError`, `MultipleResultsFound` and `IntegrityError` all propagate).
-/

/-- Python values that occur in outbound request parameter dicts.
`str` mirrors Python's `str()` used at `CilbertClubBot.py:109`. -/
inductive PVal where
  | s (v : String)
  | i (v : Int)
  | b (v : Bool)
deriving DecidableEq

/-- Python `str(value)` for the values above. -/
def PVal.str : PVal → String
  | .s v => v
  | .i v => toString v
  | .b v => if v then "True" else "False"

/-- A Python dict of request parameters: association list in insertion order,
keys unique. -/
abbrev Params : Type := List (String × PVal)

/-- Python dict assignment `d[k] = v`: replace in place if the key exists,
else append (insertion-order semantics). -/
def setParam (ps : Params) (k : String) (v : PVal) : Params :=
  if ps.any (fun kv => kv.fst == k) then
    ps.map (fun kv => if kv.fst == k then (k, v) else kv)
  else
    ps ++ [(k, v)]

/-- Insertion into a key-sorted association list (used to model Python
`sorted(d.items(), key=lambda x: x[0])`). -/
def insertByKey (kv : String × PVal) : Params → Params
  | [] => [kv]
  | x :: xs => if kv.fst ≤ x.fst then kv :: x :: xs else x :: insertByKey kv xs

/-- Sort an association list lexicographically by key. -/
def sortByKey (ps : Params) : Params :=
  ps.foldr insertByKey []

/-! ### SHA-256 (FIPS 180-4), modelling Python's `hashlib.sha256(...).hexdigest()`
over the UTF-8 encoding of a string.  32-bit machine arithmetic is modelled
on `Nat` with explicit `% 2 ^ 32`. -/

/-- UTF-8 encoding of one Unicode code point. -/
def utf8Bytes (c : Nat) : List Nat :=
  if c < 128 then [c]
  else if c < 2048 then [192 + c / 64, 128 + c % 64]
  else if c < 65536 then [224 + c / 4096, 128 + (c / 64) % 64, 128 + c % 64]
  else [240 + c / 262144, 128 + (c / 4096) % 64, 128 + (c / 64) % 64, 128 + c % 64]

/-- UTF-8 encoding of a string as a byte list. -/
def strBytes (s : String) : List Nat :=
  (s.data.map (fun c => utf8Bytes c.toNat)).flatten

/-- Right rotation of a 32-bit word. -/
def rotr (k n : Nat) : Nat :=
  (n / 2 ^ k + (n % 2 ^ k) * 2 ^ (32 - k)) % 2 ^ 32

/-- Bitwise complement of a 32-bit word. -/
def bnot32 (n : Nat) : Nat := 4294967295 ^^^ n

/-- SHA-256 small sigma 0. -/
def ssig0 (x : Nat) : Nat := rotr 7 x ^^^ rotr 18 x ^^^ (x / 2 ^ 3)

/-- SHA-256 small sigma 1. -/
def ssig1 (x : Nat) : Nat := rotr 17 x ^^^ rotr 19 x ^^^ (x / 2 ^ 10)

/-- SHA-256 big sigma 0. -/
def bsig0 (x : Nat) : Nat := rotr 2 x ^^^ rotr 13 x ^^^ rotr 22 x

/-- SHA-256 big sigma 1. -/
def bsig1 (x : Nat) : Nat := rotr 6 x ^^^ rotr 11 x ^^^ rotr 25 x

/-- SHA-256 round constants (FIPS 180-4 §4.2.2), written in decimal. -/
def K256 : List Nat :=
  [1116352408, 1899447441, 3049323471, 3921009573, 961987163,
   1508970993, 2453635748, 2870763221, 3624381080, 310598401,
   607225278, 1426881987, 1925078388, 2162078206, 2614888103,
   3248222580, 3835390401, 4022224774, 264347078, 604807628,
   770255983, 1249150122, 1555081692, 1996064986, 2554220882,
   2821834349, 2952996808, 3210313671, 3336571891, 3584528711,
   113926993, 338241895, 666307205, 773529912, 1294757372,
   1396182291, 1695183700, 1986661051, 2177026350, 2456956037,
   2730485921, 2820302411, 3259730800, 3345764771, 3516065817,
   3600352804, 4094571909, 275423344, 430227734, 506948616,
   659060556, 883997877, 958139571, 1322822218, 1537002063,
   1747873779, 1955562222, 2024104815, 2227730452, 2361852424,
   2428436474, 2756734187, 3204031479, 3329325298]

/-- SHA-256 initial hash state (FIPS 180-4 §5.3.3), written in decimal. -/
def H256init : List Nat :=
  [1779033703, 3144134277, 1013904242, 2773480762,
   1359893119, 2600822924, 528734635, 1541459225]

/-- Merkle–Damgård padding: append 0x80, zeros and the 64-bit big-endian bit
length so the total length is a multiple of 64 bytes. -/
def sha256pad (bs : List Nat) : List Nat :=
  let L := bs.length
  let zeros := (64 - (L + 9) % 64) % 64
  bs ++ [128] ++ List.replicate zeros 0
     ++ (List.range 8).map (fun i => (8 * L) / 2 ^ (8 * (7 - i)) % 256)

/-- Split a padded byte list into 64-byte blocks. -/
def toBlocks (bs : List Nat) : List (List Nat) :=
  (List.range (bs.length / 64)).map (fun i => (bs.drop (64 * i)).take 64)

/-- Parse a 64-byte block as 16 big-endian 32-bit words. -/
def toWords (block : List Nat) : List Nat :=
  (List.range 16).map (fun i =>
    block.getD (4 * i) 0 * 16777216 + block.getD (4 * i + 1) 0 * 65536
      + block.getD (4 * i + 2) 0 * 256 + block.getD (4 * i + 3) 0)

/-- Next word of the SHA-256 message schedule, computed from the words
produced so far. -/
def nextW (w : List Nat) : Nat :=
  (ssig1 (w.getD (w.length - 2) 0) + w.getD (w.length - 7) 0
    + ssig0 (w.getD (w.length - 15) 0) + w.getD (w.length - 16) 0) % 2 ^ 32

/-- Extend 16 words to the 64-word message schedule. -/
def msgSchedule (ws : List Nat) : List Nat :=
  (List.range 48).foldl (fun w _ => w ++ [nextW w]) ws

/-- One SHA-256 compression round; the state is the 8-word working list. -/
def compressStep (st : List Nat) (kw : Nat × Nat) : List Nat :=
  match st with
  | [a, b, c, d, e, f, g, h] =>
    let t1 := (h + bsig1 e + ((e &&& f) ^^^ (bnot32 e &&& g)) + kw.1 + kw.2) % 2 ^ 32
    let t2 := (bsig0 a + ((a &&& b) ^^^ (a &&& c) ^^^ (b &&& c))) % 2 ^ 32
    [(t1 + t2) % 2 ^ 32, a, b, c, (d + t1) % 2 ^ 32, e, f, g]
  | s => s

/-- Compress one 64-byte block into the running hash state. -/
def compressBlock (hs : List Nat) (block : List Nat) : List Nat :=
  let ws := msgSchedule (toWords block)
  let st := (K256.zip ws).foldl compressStep hs
  (hs.zip st).map (fun p => (p.1 + p.2) % 2 ^ 32)

/-- SHA-256 of a byte list, as eight 32-bit words. -/
def sha256words (bs : List Nat) : List Nat :=
  (toBlocks (sha256pad bs)).foldl compressBlock H256init

/-- Lowercase hexadecimal digit. -/
def hexDigit (n : Nat) : Char :=
  if n < 10 then Char.ofNat (48 + n) else Char.ofNat (87 + n)

/-- Eight lowercase hex digits of a 32-bit word. -/
def hexWord32 (n : Nat) : String :=
  String.mk ((List.range 8).map (fun i => hexDigit (n / 2 ^ (4 * (7 - i)) % 16)))

/-- Python `hashlib.sha256(s.encode('utf-8')).hexdigest()`. -/
def sha256hex (s : String) : String :=
  String.join ((sha256words (strBytes s)).map hexWord32)

/-! ### Signing client: `TinkoffAcquiringAPIClient` (`CilbertClubBot.py:45-158`) -/

/-- Embedding of `TinkoffAcquiringAPIClient.generate_token`
(`CilbertClubBot.py:98-110`).  Returns the token together with the caller's
parameter dict as it stands after the call, because the Python function
mutates its argument: line 101 copies `params`, lines 102-104 delete the
keys `Shops`, `Receipt`, `DATA` from the copy, line 106 assigns
`params['Password'] = secret` on the ORIGINAL dict, line 107 assigns it on
the copy, lines 108-110 sort the copy by key, join the stringified values
and hash them. -/
def generate_token (secret : String) (params : Params) : String × Params :=
  let ignore_keys := ["Shops", "Receipt", "DATA"]
  let copied := params.filter (fun kv => !(ignore_keys.contains kv.fst))
  let params_after := setParam params "Password" (PVal.s secret)
  let signing := setParam copied "Password" (PVal.s secret)
  let sorted_params := sortByKey signing
  let token_str := String.join (sorted_params.map (fun kv => kv.snd.str))
  (sha256hex token_str, params_after)

/-- The JSON object of a gateway response, with the fields the handlers
read (`Success`, `Message`, `PaymentId`, `Amount`, `PaymentURL`); a missing
key makes `response_data.get(...)` return `None`, hence `Option`. -/
structure RespData where
  success : Option Bool
  message : Option String
  paymentId : Option Int
  amount : Option Int
  paymentURL : Option String
deriving DecidableEq

/-- Body of an HTTP response: either not JSON-decodable or a JSON object. -/
inductive HttpBody where
  | notJson
  | json (d : RespData)
deriving DecidableEq

/-- Outcome of the `httpx` POST performed by `send_request`: connection
error, connect timeout, or an HTTP response with a status code and body. -/
inductive HttpOutcome where
  | connectError
  | connectTimeout
  | response (status : Nat) (body : HttpBody)
deriving DecidableEq

/-- Result of `send_request` as observed by its callers: `none` models the
Python function returning `None`, `raised m` models a raised
`TinkoffAPIException` with message `m`, `ok d` models returning the parsed
response dict. -/
inductive SendResult where
  | none
  | raised (msg : String)
  | ok (d : RespData)
deriving DecidableEq

/-- Python truthiness of `response_data.get('Success')`. -/
def truthy : Option Bool → Bool
  | some b => b
  | Option.none => false

/-- Embedding of `TinkoffAcquiringAPIClient.send_request`
(`CilbertClubBot.py:54-96`).  Line 60 adds `TerminalKey` to the payload,
line 61 computes the token (mutating the payload: `Password` is added to it
by `generate_token`) and stores it under `Token`; the first component of the
result is the payload as actually posted.  `httpx.ConnectError` and
`httpx.ConnectTimeout` are caught and turn into `return None` (lines 70-79),
a JSON decoding failure also returns `None` (lines 82-88), and a response
whose status is not 200 or whose `Success` field is not truthy raises
`TinkoffAPIException` with the response's `Message` or `'Unknown error'`
(lines 91-94); otherwise the parsed response is returned (line 96). -/
def send_request (terminal_key secret : String) (payload : Params)
    (http : HttpOutcome) : Params × SendResult :=
  let p1 := setParam payload "TerminalKey" (PVal.s terminal_key)
  let tp := generate_token secret p1
  let p2 := setParam tp.snd "Token" (PVal.s tp.fst)
  (p2,
    match http with
    | .connectError => .none
    | .connectTimeout => .none
    | .response _ .notJson => .none
    | .response status (.json d) =>
      if status != 200 || !(truthy d.success) then
        .raised (d.message.getD "Unknown error")
      else
        .ok d)

/-! ### Order store (`database/models.py`, `database/queries.py`) -/

/-- One row of the `order` table (`database/models.py:17-46`); `created_at`
(a server-side timestamp never read by the payment logic) is omitted.
`comment`, `address` and `payment_id` are nullable columns. -/
structure Order where
  tg_id : Int
  order_id : Int
  amount : Int
  comment : Option String
  address : Option String
  payment_id : Option Int
  status : String
deriving DecidableEq

/-- The order row with its `status` and `payment_id` fields reassigned, as
done by `update_payment_data` (`queries.py:66-67`). -/
def setStatusPid (o : Order) (s : String) (p : Option Int) : Order :=
  ⟨o.tg_id, o.order_id, o.amount, o.comment, o.address, p, s⟩

/-- Embedding of `get_amount` (`queries.py:25-41`): select the amount of the
order with the given `order_id`.  `scalar_one_or_none` raises
`MultipleResultsFound` on more than one row (not an `OperationalError`, so
it propagates); a missing row or a falsy (zero) amount raises `ValueError`
(line 34), which also propagates since only `OperationalError` is caught. -/
def get_amount (db : List Order) (order_id : Int) : Except String Int :=
  match db.filter (fun o => o.order_id == order_id) with
  | [] => .error "ValueError"
  | [o] => if o.amount == 0 then .error "ValueError" else .ok o.amount
  | _ => .error "MultipleResultsFound"

/-- Embedding of `update_payment_data` (`queries.py:44-77`): look up the
order by `order_id` (raising `ValueError` if absent, line 64, which
propagates), then UNCONDITIONALLY assign the new `status` and the given
`payment_id` (lines 66-67) and commit.  There is no check of the current
status and no preservation of the stored `payment_id`. -/
def update_payment_data (db : List Order) (order_id : Int) (status : String)
    (payment_id : Option Int) : Except String (List Order) :=
  match db.filter (fun o => o.order_id == order_id) with
  | [] => .error "ValueError"
  | [_] => .ok (db.map (fun o =>
      if o.order_id == order_id then setStatusPid o status payment_id else o))
  | _ => .error "MultipleResultsFound"

/-- Embedding of `init_new_payment` (`queries.py:79-114`): insert a new
order row.  Committing a duplicate primary key raises `IntegrityError`,
which is not an `OperationalError` and therefore propagates. -/
def init_new_payment (db : List Order) (tg_id amount order_id : Int)
    (address comment : Option String) (status : String)
    (payment_id : Option Int) : Except String (List Order) :=
  if db.any (fun o => o.order_id == order_id) then .error "IntegrityError"
  else .ok (db ++ [⟨tg_id, order_id, amount, comment, address, payment_id, status⟩])

/-- Embedding of `check_amount_and_payment_id` (`queries.py:117-158`):
select `(payment_id, amount)` of rows matching both values (SQLAlchemy
compiles a comparison against `None` to `IS NULL`, hence the `Option`
equality); no row yields `False` (line 148), more than one row raises
`MultipleResultsFound` (propagates), `int(None)` on a null stored
`payment_id` raises `TypeError` (propagates), and otherwise the re-comparison
on line 150 (always true for a row the query matched) yields `True`. -/
def check_amount_and_payment_id (db : List Order) (payment_id : Option Int)
    (amount : Option Int) : Except String Bool :=
  match db.filter (fun o => o.payment_id == payment_id && some o.amount == amount) with
  | [] => .ok false
  | [o] =>
    match o.payment_id with
    | none => .error "TypeError"
    | some payment_id_db =>
      if some payment_id_db != payment_id || some o.amount != amount then .ok false
      else .ok true
  | _ => .error "MultipleResultsFound"

/-- Embedding of `get_user_tg_id` (`queries.py:161-193`): select the
`tg_id` of the row matching `(payment_id, amount)`.  No match (or a falsy,
i.e. zero, `tg_id`, line 185) returns `None`; more than one match raises
`MultipleResultsFound`, which propagates. -/
def get_user_tg_id (db : List Order) (payment_id amount : Int) :
    Except String (Option Int) :=
  match db.filter (fun o => o.payment_id == some payment_id && o.amount == amount) with
  | [] => .ok none
  | [o] => if o.tg_id != 0 then .ok (some o.tg_id) else .ok none
  | _ => .error "MultipleResultsFound"

/-! ### Payment session handler `pay` (`CilbertClubBot.py:515-566`) -/

/-- `APP_BASE_URL` (`CilbertClubBot.py:34`). -/
def APP_BASE_URL : String := ""

/-- The parameter dict built by `init_payment` (`CilbertClubBot.py:114-146`)
for the call made by `pay` (lines 538-545): `Amount`, `OrderId` (stringified),
`Description`, then `SuccessURL`, `FailURL` and `NotificationURL`; no
`Receipt` and no `DATA` are passed. -/
def init_payment_params (amount order_id : Int) : Params :=
  [("Amount", PVal.i amount),
   ("OrderId", PVal.s (toString order_id)),
   ("Description", PVal.s "Видеозаписи лекций и/или мерч"),
   ("SuccessURL", PVal.s (APP_BASE_URL ++ "/payment/success")),
   ("FailURL", PVal.s (APP_BASE_URL ++ "/payment/fail")),
   ("NotificationURL", PVal.s (APP_BASE_URL ++ "/payment_hook"))]

/-- Observable outcome of the `pay` handler besides the store contents. -/
inductive PayOutcome where
  | silentReturn
  | exnPropagated
  | errAnswer
  | linkSent (url : String)
deriving DecidableEq

/-- Embedding of the `pay` callback handler (`CilbertClubBot.py:515-566`),
from the point where the client is created (line 535).  The `try` block
wraps only the `init_payment` call: a raised `TinkoffAPIException` (or any
other exception) is logged and the handler returns (lines 546-548,
`silentReturn`).  If `init_payment` returned `None` (transport or protocol
failure inside `send_request`), line 550 `response.get("PaymentURL")`
raises `AttributeError`, which propagates (`exnPropagated`).  A missing or
falsy (empty) `PaymentURL` takes the `else` branch, answering with an error
(line 566, `errAnswer`).  Otherwise the order is persisted via
`init_new_payment` with status `new` and the returned `PaymentId`, and the
payment link is sent (lines 554-563). -/
def pay (db : List Order) (terminal_key secret : String) (http : HttpOutcome)
    (user_tg_id order_id amount : Int) (address : Option String) :
    List Order × PayOutcome :=
  match (send_request terminal_key secret (init_payment_params amount order_id) http).snd with
  | .raised _ => (db, .silentReturn)
  | .none => (db, .exnPropagated)
  | .ok d =>
    match d.paymentURL with
    | none => (db, .errAnswer)
    | some url =>
      if url.isEmpty then (db, .errAnswer)
      else
        match init_new_payment db user_tg_id amount order_id address
            (some "Комментарий к заказу") "new" d.paymentId with
        | .error _ => (db, .exnPropagated)
        | .ok db2 => (db2, .linkSent url)

/-! ### Webhook handler `process_payment` (`CilbertClubBot.py:569-639`) -/

/-- The parsed webhook JSON body; `data.get(...)` of a missing key is
`None`, hence every field is an `Option`. -/
structure Webhook where
  amountField : Option Int
  orderIdField : Option Int
  paymentIdField : Option Int
  statusField : Option String
  successField : Option Bool
deriving DecidableEq

/-- Outcome of the `GetState` call `client.get_payment_state(payment_id)`
made at `CilbertClubBot.py:595-598`, as observed by `process_payment`:
the call can raise (`TinkoffAPIException` from `send_request`), return
`None` (transport or protocol failure; the subsequent `response.get`
on line 599 then raises `AttributeError`), or return a response carrying
optional `PaymentId` and `Amount` fields. -/
inductive GetStateResult where
  | raises
  | returnsNone
  | resp (paymentId : Option Int) (amount : Option Int)
deriving DecidableEq

/-- Mapping from the result of the `GetState` `send_request` call to the
outcome observed by `process_payment` (connecting `GetStateResult` to the
transport client semantics). -/
def getStateOutcome : SendResult → GetStateResult
  | .raised _ => .raises
  | .none => .returnsNone
  | .ok d => .resp d.paymentId d.amount

/-- What became of the second, independent verification inside the `try`
block at `CilbertClubBot.py:594-614`: not attempted (branch not reached),
swallowed (an exception was caught by `except Exception: pass`), or checked
with the boolean result of `check_amount_and_payment_id` (which is only
logged when false, line 605-608). -/
inductive VerifOutcome where
  | notAttempted
  | swallowed
  | checked (b : Bool)
deriving DecidableEq

/-- The `try` block of `process_payment` (`CilbertClubBot.py:594-614`):
query `GetState`, read `PaymentId` and `Amount` from the response and
compare them against the store.  Every failure (raised request, `None`
response, raising comparison) is caught by `except Exception` and ignored;
a `False` comparison is merely logged.  The block has no effect on the
store and does not stop the subsequent update. -/
def second_verification (db : List Order) (gw : GetStateResult) : VerifOutcome :=
  match gw with
  | .raises => .swallowed
  | .returnsNone => .swallowed
  | .resp pid amt =>
    match check_amount_and_payment_id db pid amt with
    | .error _ => .swallowed
    | .ok b => .checked b

/-- HTTP response of the webhook handler: `okOK` is `web.Response(text="OK",
status=200)`; `exn` means an uncaught exception escaped the handler (the
aiohttp server then answers with an internal error, not 200 OK). -/
inductive HookResponse where
  | okOK
  | exn
deriving DecidableEq

/-- Everything observable about one webhook delivery: the store afterwards,
the HTTP response, the telegram ids that received the fulfillment
("successfully paid") message, the ids that received the failure message,
and the fate of the second verification. -/
structure HookOutcome where
  db : List Order
  response : HookResponse
  fulfilled : List Int
  rejectedMsg : List Int
  verif : VerifOutcome
deriving DecidableEq

/-- Embedding of the webhook handler `process_payment`
(`CilbertClubBot.py:569-639`).  Lines 577-579 convert `Amount`, `OrderId`
and `PaymentId` with `int(...)` in that order; a missing key makes `int(None)`
raise `TypeError`, which escapes the handler.  Line 581 looks up the
purchaser by `(payment_id, amount)`.  If `Status == "CONFIRMED"` and
`Success is True` (line 587), the stored amount for `order_id` is fetched
(with `ValueError` escaping if absent, line 588) and compared with the
notified amount (line 591); on a match the second verification runs inside
`try/except pass` (lines 594-614) and then, regardless of its outcome,
`update_payment_data(order_id, "confirmed", payment_id)` is awaited
(lines 616-620) and the fulfillment message is sent to `user_id`
(line 621; sending to `None` raises).  On `Status == "REJECTED"`
(line 628) the order is unconditionally updated to `canceled` and the
failure message is sent.  All remaining paths return 200 OK "OK". -/
def process_payment (db : List Order) (gw : GetStateResult) (w : Webhook) :
    HookOutcome :=
  match w.amountField with
  | none => ⟨db, .exn, [], [], .notAttempted⟩
  | some amount =>
  match w.orderIdField with
  | none => ⟨db, .exn, [], [], .notAttempted⟩
  | some order_id =>
  match w.paymentIdField with
  | none => ⟨db, .exn, [], [], .notAttempted⟩
  | some payment_id =>
  match get_user_tg_id db payment_id amount with
  | .error _ => ⟨db, .exn, [], [], .notAttempted⟩
  | .ok user_id =>
    if w.statusField == some "CONFIRMED" && w.successField == some true then
      match get_amount db order_id with
      | .error _ => ⟨db, .exn, [], [], .notAttempted⟩
      | .ok curr_amount =>
        if curr_amount == amount then
          let verif := second_verification db gw
          match update_payment_data db order_id "confirmed" (some payment_id) with
          | .error _ => ⟨db, .exn, [], [], verif⟩
          | .ok db2 =>
            match user_id with
            | none => ⟨db2, .exn, [], [], verif⟩
            | some uid => ⟨db2, .okOK, [uid], [], verif⟩
        else ⟨db, .okOK, [], [], .notAttempted⟩
    else if w.statusField == some "REJECTED" then
      match update_payment_data db order_id "canceled" (some payment_id) with
      | .error _ => ⟨db, .exn, [], [], .notAttempted⟩
      | .ok db2 =>
        match user_id with
        | none => ⟨db2, .exn, [], [], .notAttempted⟩
        | some uid => ⟨db2, .okOK, [], [uid], .notAttempted⟩
    else ⟨db, .okOK, [], [], .notAttempted⟩

/-! ## Claim theorems -/

/-- C10 (spec side): the postcondition of `send_request` as the claim states
it — the parsed response is returned only when the HTTP status is 200 and
`Success` is truthy; a JSON response failing that raises
`TinkoffAPIException` with the response's `Message` or `'Unknown error'`;
connection errors, connect timeouts and JSON-decode failures return `None`. -/
def send_request_result_spec : HttpOutcome → SendResult
  | .connectError => .none
  | .connectTimeout => .none
  | .response _ .notJson => .none
  | .response status (.json d) =>
    if status == 200 && truthy d.success then .ok d
    else .raised (d.message.getD "Unknown error")

/-- C10: the transport client's `send_request` returns the parsed response
exactly when the HTTP status is 200 and `Success` is truthy, raises
`TinkoffAPIException` carrying `Message` (or `'Unknown error'`) when the
body parses but the status or flag is wrong, and returns `None` on a
connection error, a connect timeout or a JSON-decode failure — for every
payload and every transport outcome. -/
theorem send_request_matches_result_spec (tk sec : String) (pl : Params)
    (http : HttpOutcome) :
    (send_request tk sec pl http).snd = send_request_result_spec http := by
  cases http with
  | connectError => rfl
  | connectTimeout => rfl
  | response status body =>
    cases body with
    | notJson => rfl
    | json d =>
      simp only [send_request, send_request_result_spec]
      cases hs : (status == 200) <;> cases ht : truthy d.success <;>
        simp [hs, ht, bne]

/-- C8 (counterexample): a connection failure and a non-JSON response
produce the very same result (`None`), so the caller cannot tell a
transport error from a protocol error from the result alone, contradicting
the claimed three mutually distinguishable typed error outcomes. -/
theorem transport_and_protocol_errors_indistinguishable :
    (send_request "TKey" "SKey" [("PaymentId", PVal.i 1)] HttpOutcome.connectError).snd
      = (send_request "TKey" "SKey" [("PaymentId", PVal.i 1)]
          (HttpOutcome.response 200 HttpBody.notJson)).snd := rfl

/-- C8 (amended): the transport client signals only two distinguishable
outcomes: connection failure, connect timeout and a non-JSON body all
collapse to the same `None` return, while an HTTP response carrying an
application-level failure (e.g. status 500) raises the single exception
type `TinkoffAPIException` with the gateway's message. -/
theorem send_request_two_error_classes (tk sec : String) (pl : Params)
    (st : Nat) (d : RespData) :
    (send_request tk sec pl HttpOutcome.connectError).snd = SendResult.none
  ∧ (send_request tk sec pl HttpOutcome.connectTimeout).snd = SendResult.none
  ∧ (send_request tk sec pl (HttpOutcome.response st HttpBody.notJson)).snd = SendResult.none
  ∧ (send_request tk sec pl (HttpOutcome.response 500 (HttpBody.json d))).snd
      = SendResult.raised (d.message.getD "Unknown error") :=
  ⟨rfl, rfl, rfl, rfl⟩

/-- C5 (code bug): `generate_token` inserts the `Password` entry into the
CALLER's parameter dict as well (line 106 of `CilbertClubBot.py` assigns on
`params`, not only on the signing copy `_params`), so the outbound payload
posted by `send_request` carries the shared secret.  Evaluated at a concrete
parameter set. -/
theorem password_added_to_caller_params_and_outbound_payload :
    (generate_token "SecretKey" [("Amount", PVal.i 10000), ("OrderId", PVal.s "42")]).snd
      = [("Amount", PVal.i 10000), ("OrderId", PVal.s "42"), ("Password", PVal.s "SecretKey")]
  ∧ ("Password", PVal.s "SecretKey")
      ∈ (send_request "TermKey" "SecretKey" [("Amount", PVal.i 10000)]
          HttpOutcome.connectError).fst := by
  refine ⟨rfl, ?_⟩
  exact List.Mem.tail _ (List.Mem.tail _ (List.Mem.head _))

/-- C1 (counterexample): an order in the terminal status `canceled` is
overwritten to `confirmed` by a CONFIRMED webhook — the further
status-update attempt is NOT a no-op, because `update_payment_data` never
checks the current status — and the fulfillment notification fires. -/
theorem confirmed_webhook_overwrites_canceled_order :
    process_payment [⟨7, 42, 10000, none, none, some 555, "canceled"⟩]
      (GetStateResult.resp (some 555) (some 10000))
      ⟨some 10000, some 42, some 555, some "CONFIRMED", some true⟩
    = ⟨[⟨7, 42, 10000, none, none, some 555, "confirmed"⟩],
       HookResponse.okOK, [7], [], VerifOutcome.checked true⟩ := by
  decide

/-- C1 (amended): the store's status update is unconditional: replaying a
CONFIRMED webhook against an order that is already `confirmed` rewrites the
same status value (so the stored row is unchanged) but re-sends the
fulfillment notification, for every GetState outcome. -/
theorem replay_on_confirmed_order_refires_fulfillment
    (tg oid amt pid : Int) (c adr : Option String) (gw : GetStateResult)
    (htg : tg ≠ 0) (hamt : amt ≠ 0) :
    process_payment [⟨tg, oid, amt, c, adr, some pid, "confirmed"⟩] gw
      ⟨some amt, some oid, some pid, some "CONFIRMED", some true⟩
    = ⟨[⟨tg, oid, amt, c, adr, some pid, "confirmed"⟩], HookResponse.okOK, [tg], [],
        second_verification [⟨tg, oid, amt, c, adr, some pid, "confirmed"⟩] gw⟩ := by
  have htg' : (tg != 0) = true := bne_iff_ne.mpr htg
  have hamt' : (amt == 0) = false := beq_eq_false_iff_ne.mpr hamt
  simp [process_payment, get_user_tg_id, get_amount, update_payment_data,
    setStatusPid, htg', hamt']

/-- C1 (witness). -/
theorem replay_on_confirmed_order_refires_fulfillment_witness :
    process_payment [⟨7, 42, 10000, none, none, some 555, "confirmed"⟩]
      GetStateResult.raises
      ⟨some 10000, some 42, some 555, some "CONFIRMED", some true⟩
    = ⟨[⟨7, 42, 10000, none, none, some 555, "confirmed"⟩], HookResponse.okOK, [7], [],
        second_verification [⟨7, 42, 10000, none, none, some 555, "confirmed"⟩]
          GetStateResult.raises⟩ :=
  replay_on_confirmed_order_refires_fulfillment 7 42 10000 555 none none
    GetStateResult.raises (by decide) (by decide)

/-- C2 (counterexample): the GetState comparison fails (the gateway reports
Amount 9999 while the store holds 10000, so `check_amount_and_payment_id`
returns `False`), yet the order still transitions from `new` to
`confirmed` — the commit does not wait for the second verification to
succeed. -/
theorem confirm_commits_despite_failed_second_check :
    process_payment [⟨9, 43, 10000, none, none, some 556, "new"⟩]
      (GetStateResult.resp (some 556) (some 9999))
      ⟨some 10000, some 43, some 556, some "CONFIRMED", some true⟩
    = ⟨[⟨9, 43, 10000, none, none, some 556, "confirmed"⟩],
       HookResponse.okOK, [9], [], VerifOutcome.checked false⟩ := by
  decide

/-- C2 (amended): for a CONFIRMED webhook whose notified amount matches the
stored amount, the transition to `confirmed` commits and the fulfillment
notification fires for EVERY outcome of the GetState query — a raised
request, a `None` response, or any comparison result alike; the second
verification is attempted and its failure only logged. -/
theorem confirmed_transition_commits_for_all_getstate_outcomes
    (tg oid amt pid : Int) (c adr : Option String) (gw : GetStateResult)
    (htg : tg ≠ 0) (hamt : amt ≠ 0) :
    process_payment [⟨tg, oid, amt, c, adr, some pid, "new"⟩] gw
      ⟨some amt, some oid, some pid, some "CONFIRMED", some true⟩
    = ⟨[⟨tg, oid, amt, c, adr, some pid, "confirmed"⟩], HookResponse.okOK, [tg], [],
        second_verification [⟨tg, oid, amt, c, adr, some pid, "new"⟩] gw⟩ := by
  have htg' : (tg != 0) = true := bne_iff_ne.mpr htg
  have hamt' : (amt == 0) = false := beq_eq_false_iff_ne.mpr hamt
  simp [process_payment, get_user_tg_id, get_amount, update_payment_data,
    setStatusPid, htg', hamt']

/-- C2 (witness). -/
theorem confirmed_transition_commits_for_all_getstate_outcomes_witness :
    process_payment [⟨9, 43, 10000, none, none, some 556, "new"⟩]
      GetStateResult.returnsNone
      ⟨some 10000, some 43, some 556, some "CONFIRMED", some true⟩
    = ⟨[⟨9, 43, 10000, none, none, some 556, "confirmed"⟩], HookResponse.okOK, [9], [],
        second_verification [⟨9, 43, 10000, none, none, some 556, "new"⟩]
          GetStateResult.returnsNone⟩ :=
  confirmed_transition_commits_for_all_getstate_outcomes 9 43 10000 556 none none
    GetStateResult.returnsNone (by decide) (by decide)

/-- C3 (counterexample): a malformed payload (no `Amount` key) makes
`int(data.get("Amount"))` raise, so the handler does NOT return 200 OK —
the exception escapes to the server. -/
theorem malformed_webhook_escapes_with_error :
    process_payment [] GetStateResult.raises
      ⟨none, some 44, some 557, some "CONFIRMED", some true⟩
    = ⟨[], HookResponse.exn, [], [], VerifOutcome.notAttempted⟩ := by
  decide

/-- C3 (amended): the webhook handler returns the 200 OK acknowledgement
only if the payload's `Amount`, `OrderId` and `PaymentId` all parse and the
purchaser lookup does not raise.  A payload missing any of the three fields
raises (`int(None)` is a `TypeError`) instead of acknowledging, and
internal errors propagate likewise: a CONFIRMED-success webhook whose
`order_id` has no stored amount raises out of `get_amount`, and a
CONFIRMED-success webhook whose amount matches the store but whose
`(payment_id, amount)` matches no purchaser raises when the fulfillment
message is sent to the absent recipient.  A parsed payload taking neither
the CONFIRMED-success branch nor the REJECTED branch is acknowledged
200 OK with the store untouched, provided the purchaser lookup does not
itself raise. -/
theorem webhook_ack_only_when_parse_and_branches_succeed :
    (∀ (db : List Order) (gw : GetStateResult) (oid pid : Option Int)
        (st : Option String) (su : Option Bool),
      process_payment db gw ⟨none, oid, pid, st, su⟩
        = ⟨db, HookResponse.exn, [], [], VerifOutcome.notAttempted⟩)
  ∧ (∀ (db : List Order) (gw : GetStateResult) (a : Int) (pid : Option Int)
        (st : Option String) (su : Option Bool),
      process_payment db gw ⟨some a, none, pid, st, su⟩
        = ⟨db, HookResponse.exn, [], [], VerifOutcome.notAttempted⟩)
  ∧ (∀ (db : List Order) (gw : GetStateResult) (a oid : Int)
        (st : Option String) (su : Option Bool),
      process_payment db gw ⟨some a, some oid, none, st, su⟩
        = ⟨db, HookResponse.exn, [], [], VerifOutcome.notAttempted⟩)
  ∧ (∀ (db : List Order) (gw : GetStateResult) (a oid pid : Int)
        (u : Option Int) (e : String),
      get_user_tg_id db pid a = .ok u →
      get_amount db oid = .error e →
      process_payment db gw ⟨some a, some oid, some pid, some "CONFIRMED", some true⟩
        = ⟨db, HookResponse.exn, [], [], VerifOutcome.notAttempted⟩)
  ∧ (∀ (db : List Order) (gw : GetStateResult) (a oid pid : Int) (o : Order),
      get_user_tg_id db pid a = .ok none →
      get_amount db oid = .ok a →
      db.filter (fun x => x.order_id == oid) = [o] →
      (process_payment db gw
        ⟨some a, some oid, some pid, some "CONFIRMED", some true⟩).response
        = HookResponse.exn)
  ∧ (∀ (db : List Order) (gw : GetStateResult) (w : Webhook),
      (process_payment db gw w).response = HookResponse.okOK →
      ∃ (a oid pid : Int) (u : Option Int),
        w.amountField = some a ∧ w.orderIdField = some oid
          ∧ w.paymentIdField = some pid ∧ get_user_tg_id db pid a = .ok u)
  ∧ (∀ (db : List Order) (gw : GetStateResult) (a oid pid : Int)
        (st : Option String) (su : Option Bool) (u : Option Int),
      get_user_tg_id db pid a = .ok u →
      (st == some "CONFIRMED" && su == some true) = false →
      (st == some "REJECTED") = false →
      process_payment db gw ⟨some a, some oid, some pid, st, su⟩
        = ⟨db, HookResponse.okOK, [], [], VerifOutcome.notAttempted⟩) := by
  refine ⟨?_, ?_, ?_, ?_, ?_, ?_, ?_⟩
  · intro db gw oid pid st su
    rfl
  · intro db gw a pid st su
    rfl
  · intro db gw a oid st su
    rfl
  · intro db gw a oid pid u e hu herr
    simp [process_payment, hu, herr]
  · intro db gw a oid pid o hu hga hf
    simp [process_payment, hu, hga, update_payment_data, hf]
  · intro db gw w h
    obtain ⟨wa, wo, wp, ws, wsu⟩ := w
    cases wa with
    | none => simp [process_payment] at h
    | some a =>
      cases wo with
      | none => simp [process_payment] at h
      | some oid =>
        cases wp with
        | none => simp [process_payment] at h
        | some pid =>
          cases hu : get_user_tg_id db pid a with
          | error e =>
            rw [process_payment] at h
            simp only [hu] at h
            simp at h
          | ok u => exact ⟨a, oid, pid, u, rfl, rfl, rfl, hu⟩
  · intro db gw a oid pid st su u hu h1 h2
    simp [process_payment, hu, h1, h2]

/-- C3 (witness). -/
theorem webhook_ack_only_when_parse_and_branches_succeed_witness :
    process_payment [] GetStateResult.raises
      ⟨some 5, some 1, none, some "CONFIRMED", some true⟩
      = ⟨[], HookResponse.exn, [], [], VerifOutcome.notAttempted⟩
  ∧ process_payment [] GetStateResult.raises
      ⟨some 5, some 1, some 2, some "CONFIRMED", some true⟩
      = ⟨[], HookResponse.exn, [], [], VerifOutcome.notAttempted⟩
  ∧ (process_payment [⟨3, 48, 10000, none, none, some 561, "new"⟩]
      GetStateResult.raises
      ⟨some 10000, some 48, some 999, some "CONFIRMED", some true⟩).response
      = HookResponse.exn
  ∧ (∃ (a oid pid : Int) (u : Option Int),
      (some (5 : Int) = some a)
        ∧ (some (1 : Int) = some oid)
        ∧ (some (2 : Int) = some pid)
        ∧ get_user_tg_id [] pid a = .ok u)
  ∧ process_payment [] GetStateResult.raises
      ⟨some 5, some 1, some 2, some "AUTHORIZED", some true⟩
      = ⟨[], HookResponse.okOK, [], [], VerifOutcome.notAttempted⟩ :=
  ⟨webhook_ack_only_when_parse_and_branches_succeed.2.2.1 [] GetStateResult.raises
      5 1 (some "CONFIRMED") (some true),
   webhook_ack_only_when_parse_and_branches_succeed.2.2.2.1 [] GetStateResult.raises
      5 1 2 none "ValueError" rfl rfl,
   webhook_ack_only_when_parse_and_branches_succeed.2.2.2.2.1
      [⟨3, 48, 10000, none, none, some 561, "new"⟩] GetStateResult.raises
      10000 48 999 ⟨3, 48, 10000, none, none, some 561, "new"⟩ rfl rfl rfl,
   webhook_ack_only_when_parse_and_branches_succeed.2.2.2.2.2.1
      [] GetStateResult.raises ⟨some 5, some 1, some 2, some "AUTHORIZED", some true⟩ rfl,
   webhook_ack_only_when_parse_and_branches_succeed.2.2.2.2.2.2 [] GetStateResult.raises
      5 1 2 (some "AUTHORIZED") (some true) none rfl (by decide) (by decide)⟩

/-- C4: a CONFIRMED webhook whose notified amount differs from the amount
stored for that `order_id` never transitions the order to `confirmed` — the
store is left exactly as it was, whatever the GetState outcome and whatever
the purchaser lookup yields. -/
theorem amount_mismatch_never_confirms
    (db : List Order) (gw : GetStateResult) (a oid pid curr : Int)
    (hga : get_amount db oid = .ok curr) (hne : curr ≠ a) :
    (process_payment db gw ⟨some a, some oid, some pid, some "CONFIRMED", some true⟩).db
      = db := by
  have hcb : (curr == a) = false := beq_eq_false_iff_ne.mpr hne
  cases hu : get_user_tg_id db pid a with
  | error e => simp [process_payment, hu]
  | ok u => simp [process_payment, hu, hga, hcb]

/-- C4 (witness). -/
theorem amount_mismatch_never_confirms_witness :
    (process_payment [⟨7, 42, 9999, none, none, some 555, "new"⟩] GetStateResult.raises
      ⟨some 10000, some 42, some 555, some "CONFIRMED", some true⟩).db
    = [⟨7, 42, 9999, none, none, some 555, "new"⟩] :=
  amount_mismatch_never_confirms [⟨7, 42, 9999, none, none, some 555, "new"⟩]
    GetStateResult.raises 10000 42 555 9999 rfl (by decide)

/-- C6 (counterexample): a REJECTED webhook whose `(payment_id, amount)`
pair matches no stored order (PaymentId 999 is unknown) nevertheless
mutates the store: the order selected by `OrderId` alone is set to
`canceled` and its `payment_id` is overwritten with 999; moreover the
handler does not return the success acknowledgement (sending the failure
message to the absent purchaser raises). -/
theorem unmatched_webhook_still_mutates_store :
    process_payment [⟨8, 45, 10000, none, none, some 558, "new"⟩] GetStateResult.raises
      ⟨some 10000, some 45, some 999, some "REJECTED", none⟩
    = ⟨[⟨8, 45, 10000, none, none, some 999, "canceled"⟩],
       HookResponse.exn, [], [], VerifOutcome.notAttempted⟩ := by
  decide

/-- C6 (amended): the `(payment_id, amount)` lookup determines only the
notification recipient, while mutation is keyed by `OrderId` alone.  A
webhook matching no stored `(payment_id, amount)` leaves every order
unchanged and is acknowledged with success only when it takes neither
mutating branch; in the REJECTED branch it still rewrites the order named
by its `OrderId` (status `canceled`, `payment_id` overwritten) and the
acknowledgement is lost because messaging the absent purchaser raises. -/
theorem unmatched_webhook_frame_characterization :
    (∀ (db : List Order) (gw : GetStateResult) (a oid pid : Int)
        (st : Option String) (su : Option Bool),
      get_user_tg_id db pid a = .ok none →
      (st == some "CONFIRMED" && su == some true) = false →
      (st == some "REJECTED") = false →
      process_payment db gw ⟨some a, some oid, some pid, st, su⟩
        = ⟨db, HookResponse.okOK, [], [], VerifOutcome.notAttempted⟩)
  ∧ (∀ (db : List Order) (gw : GetStateResult) (a oid pid : Int)
        (su : Option Bool) (o : Order),
      get_user_tg_id db pid a = .ok none →
      db.filter (fun x => x.order_id == oid) = [o] →
      process_payment db gw ⟨some a, some oid, some pid, some "REJECTED", su⟩
        = ⟨db.map (fun x =>
              if x.order_id == oid then setStatusPid x "canceled" (some pid) else x),
           HookResponse.exn, [], [], VerifOutcome.notAttempted⟩) := by
  constructor
  · intro db gw a oid pid st su hu h1 h2
    simp [process_payment, hu, h1, h2]
  · intro db gw a oid pid su o hu hf
    have h1 : ((some "REJECTED" : Option String) == some "CONFIRMED") = false := by decide
    simp [process_payment, hu, h1, update_payment_data, hf]

/-- C6 (witness). -/
theorem unmatched_webhook_frame_characterization_witness :
    process_payment [] GetStateResult.raises
      ⟨some 10000, some 45, some 999, some "AUTHORIZED", some true⟩
      = ⟨[], HookResponse.okOK, [], [], VerifOutcome.notAttempted⟩
  ∧ process_payment [⟨8, 45, 10000, none, none, some 558, "new"⟩] GetStateResult.raises
      ⟨some 10000, some 45, some 999, some "REJECTED", some false⟩
      = ⟨[⟨8, 45, 10000, none, none, some 558, "new"⟩].map (fun x =>
            if x.order_id == 45 then setStatusPid x "canceled" (some 999) else x),
         HookResponse.exn, [], [], VerifOutcome.notAttempted⟩ :=
  ⟨unmatched_webhook_frame_characterization.1 [] GetStateResult.raises
      10000 45 999 (some "AUTHORIZED") (some true) rfl (by decide) (by decide),
   unmatched_webhook_frame_characterization.2
      [⟨8, 45, 10000, none, none, some 558, "new"⟩] GetStateResult.raises
      10000 45 999 (some false) ⟨8, 45, 10000, none, none, some 558, "new"⟩ rfl rfl⟩

/-- Whether an `Init` call produced a truthy `PaymentURL` — the only case in
which `pay` persists an order (`CilbertClubBot.py:550-561`). -/
def initHasPaymentURL : SendResult → Bool
  | .ok d =>
    match d.paymentURL with
    | some u => !u.isEmpty
    | none => false
  | _ => false

/-- C7: whenever the `Init` call fails (the request raised, the transport
client returned `None`) or its response carries no truthy payment URL, the
`pay` handler persists nothing: the store afterwards is exactly the store
before. -/
theorem init_failure_persists_no_order
    (db : List Order) (tk sec : String) (http : HttpOutcome)
    (tg oid amt : Int) (adr : Option String)
    (h : initHasPaymentURL
          (send_request tk sec (init_payment_params amt oid) http).snd = false) :
    (pay db tk sec http tg oid amt adr).fst = db := by
  cases hr : (send_request tk sec (init_payment_params amt oid) http).snd with
  | none => simp [pay, hr]
  | raised m => simp [pay, hr]
  | ok d =>
    rw [hr] at h
    cases hu : d.paymentURL with
    | none => simp [pay, hr, hu]
    | some u =>
      rw [initHasPaymentURL, hu] at h
      cases he : u.isEmpty with
      | true => simp [pay, hr, hu, he]
      | false =>
        simp only [he] at h
        exact absurd h (by decide)

/-- C7 (witness). -/
theorem init_failure_persists_no_order_witness :
    (pay [] "tkey" "skey" HttpOutcome.connectError 7 47 100 none).fst = [] :=
  init_failure_persists_no_order [] "tkey" "skey" HttpOutcome.connectError
    7 47 100 none rfl

/-- C9 (counterexample): an order is created with `payment_id` 560 set from
the Init response, and a later `update_payment_data` call (as the webhook
branches issue) replaces it with 999 — `payment_id` is not immutable once
set. -/
theorem payment_id_overwritten_after_set :
    init_new_payment [] 6 20000 46 none (some "Комментарий к заказу") "new" (some 560)
      = .ok [⟨6, 46, 20000, some "Комментарий к заказу", none, some 560, "new"⟩]
  ∧ update_payment_data
      [⟨6, 46, 20000, some "Комментарий к заказу", none, some 560, "new"⟩]
      46 "canceled" (some 999)
      = .ok [⟨6, 46, 20000, some "Комментарий к заказу", none, some 999, "canceled"⟩] :=
  ⟨rfl, rfl⟩

/-- C9 (amended): `payment_id` is set at creation from the Init response,
but every status update rewrites it: `update_payment_data` assigns its
`payment_id` argument (defaulting to null) to the selected order whatever
value was stored before, so webhook-driven updates can change or clear it. -/
theorem update_overwrites_payment_id_unconditionally
    (db : List Order) (oid : Int) (s : String) (p : Option Int) (o : Order)
    (hf : db.filter (fun x => x.order_id == oid) = [o]) :
    update_payment_data db oid s p
      = .ok (db.map (fun x => if x.order_id == oid then setStatusPid x s p else x))
  ∧ (setStatusPid o s p).payment_id = p
  ∧ (setStatusPid o s p).status = s := by
  refine ⟨?_, rfl, rfl⟩
  simp [update_payment_data, hf]

/-- C9 (witness). -/
theorem update_overwrites_payment_id_unconditionally_witness :
    update_payment_data [⟨6, 46, 20000, none, none, some 560, "new"⟩] 46 "confirmed" (some 777)
      = .ok ([⟨6, 46, 20000, none, none, some 560, "new"⟩].map (fun x =>
          if x.order_id == 46 then setStatusPid x "confirmed" (some 777) else x))
  ∧ (setStatusPid (⟨6, 46, 20000, none, none, some 560, "new"⟩ : Order)
      "confirmed" (some 777)).payment_id = some 777
  ∧ (setStatusPid (⟨6, 46, 20000, none, none, some 560, "new"⟩ : Order)
      "confirmed" (some 777)).status = "confirmed" :=
  update_overwrites_payment_id_unconditionally
    [⟨6, 46, 20000, none, none, some 560, "new"⟩] 46 "confirmed" (some 777)
    ⟨6, 46, 20000, none, none, some 560, "new"⟩ rfl
